import Mathlib

/-!
Verification of the goterm `term` package: a shallow embedding of the
POSIX termios model, its Raw/Cook mode transitions, the SSH pty-request
codec, and the PTY-pair lifecycle helpers, together with proofs of the
specified properties.

Machine integers of the source (uint32 flag fields, byte-valued control
characters) are embedded as `Nat` with explicit bounds or masks where
overflow or truncation matters.  Kernel interaction (ioctl, open, close,
read) is embedded as explicit environment records describing the outcome
the kernel produces, so each syscall-using function becomes a pure
function of its environment.
-/

namespace GoTerm

/-! ### Flag constants

Modelled from the spec: named bit masks for input/output/control/local
modes and control-character indices, matching POSIX termios semantics
(the constants file of the repository is not part of the sources given;
values are the Linux asm-generic termbits values the rest of the package
relies on).  `CBAUD` and `CBAUDEX` are taken directly from
`termios_linux.go`. -/

def IGNBRK : Nat := 0o1
def BRKINT : Nat := 0o2
def IGNPAR : Nat := 0o4
def PARMRK : Nat := 0o10
def INPCK : Nat := 0o20
def ISTRIP : Nat := 0o40
def INLCR : Nat := 0o100
def IGNCR : Nat := 0o200
def ICRNL : Nat := 0o400
def IXON : Nat := 0o2000
def IXANY : Nat := 0o4000
def IXOFF : Nat := 0o10000

def OPOST : Nat := 0o1

def CSIZE : Nat := 0o60
def CS7 : Nat := 0o40
def CS8 : Nat := 0o60
def PARENB : Nat := 0o400
def PARODD : Nat := 0o1000

/-- CBAUD serial speed settings mask (`termios_linux.go`). -/
def CBAUD : Nat := 0o10017
/-- CBAUDEX serial speed settings mask (`termios_linux.go`). -/
def CBAUDEX : Nat := 0o10000

def ISIG : Nat := 0o1
def ICANON : Nat := 0o2
def ECHO : Nat := 0o10
def ECHOE : Nat := 0o20
def ECHOK : Nat := 0o40
def ECHONL : Nat := 0o100
def IEXTEN : Nat := 0o100000

/-- NCCS size of the control-character array. -/
def NCCS : Nat := 32

def VINTR : Fin 32 := 0
def VQUIT : Fin 32 := 1
def VERASE : Fin 32 := 2
def VKILL : Fin 32 := 3
def VEOF : Fin 32 := 4
def VTIME : Fin 32 := 5
def VMIN : Fin 32 := 6
def VSTART : Fin 32 := 8
def VSTOP : Fin 32 := 9
def VSUSP : Fin 32 := 10

/-! ### Data model -/

/-- Modelled from the spec: window size record (rows, columns, pixel
width and height); the struct definition itself is not among the given
sources. -/
@[ext] structure Winsize where
  WsRow : Nat
  WsCol : Nat
  WsXpixel : Nat
  WsYpixel : Nat
deriving Repr, DecidableEq

/-- Modelled from the spec: the aggregate terminal-state record.
`Iflag`/`Oflag`/`Cflag`/`Lflag` are unsigned bit-field integers, `Cc` a
fixed-size array of control-character byte values, `Ispeed`/`Ospeed` the
baud-rate encodings, and `Wz` the co-located window size. -/
@[ext] structure Termios where
  Iflag : Nat
  Oflag : Nat
  Cflag : Nat
  Lflag : Nat
  Cc : Fin 32 → Nat
  Ispeed : Nat
  Ospeed : Nat
  Wz : Winsize

/-- The zero value of `Winsize`. -/
def Winsize.zero : Winsize := ⟨0, 0, 0, 0⟩

/-- The zero value of `Termios` (a default-initialized value in Go). -/
def Termios.zero : Termios :=
  { Iflag := 0, Oflag := 0, Cflag := 0, Lflag := 0
    Cc := fun _ => 0, Ispeed := 0, Ospeed := 0, Wz := Winsize.zero }

/-- Well-formedness of a `Termios` as the image of the Go struct: `Cc`
entries are bytes and the speed fields are 32-bit values. -/
def Termios.wf (t : Termios) : Prop :=
  (∀ i : Fin 32, t.Cc i < 2 ^ 8) ∧ t.Ispeed < 2 ^ 32 ∧ t.Ospeed < 2 ^ 32

instance (t : Termios) : Decidable t.wf := by
  unfold Termios.wf; infer_instance

/-! ### Mode transitions

Modelled from the spec: `Raw()` clears the break/parity/strip/newline
translation/flow-control input flags, output post-processing, the local
echo/canonical/signal/extended flags and parity-enable, forces the
character-size field to 8 bits and sets `Cc` so a read returns after
exactly one byte with no timeout.  `Cook()` sets the parity-check,
strip, CR-to-NL and flow-control input flags, output post-processing,
and the signal/canonical local flags; per the spec the break-interrupt
flag is added by the caller, not by `Cook()` itself. -/

/-- Modelled from the spec: `Raw()` (receiver mutation embedded as a
function returning the updated record). -/
def Termios.Raw (t : Termios) : Termios :=
  { t with
    Iflag := Nat.ldiff t.Iflag
      (IGNBRK ||| BRKINT ||| PARMRK ||| ISTRIP ||| INLCR ||| IGNCR ||| ICRNL ||| IXON)
    Oflag := Nat.ldiff t.Oflag OPOST
    Lflag := Nat.ldiff t.Lflag (ECHO ||| ECHONL ||| ICANON ||| ISIG ||| IEXTEN)
    Cflag := Nat.ldiff t.Cflag (CSIZE ||| PARENB) ||| CS8
    Cc := Function.update (Function.update t.Cc VTIME 0) VMIN 1 }

/-- Modelled from the spec: `Cook()` (receiver mutation embedded as a
function returning the updated record). -/
def Termios.Cook (t : Termios) : Termios :=
  { t with
    Iflag := t.Iflag ||| (IGNPAR ||| ISTRIP ||| ICRNL ||| IXON)
    Oflag := t.Oflag ||| OPOST
    Lflag := t.Lflag ||| (ISIG ||| ICANON) }

/-! ### SSH codec

Modelled from the spec: the SSH mode list is a sequence of
`(uint8 opcode, uint32 big-endian value)` pairs terminated by an
opcode-0 sentinel, over the fixed protocol opcode table restricted to
the subset the spec lists (RFC 4254 opcode numbers).  `ToSSH` emits,
for each table opcode, the control-character value, a 1 for each flag
bit that is set, and the two speeds, followed by the sentinel.
`FromSSH` parses pairs until the sentinel, the end of input or a
truncated pair, setting the corresponding bit or field of a
zero-initialized Termios and ignoring unrecognized opcodes. -/

/-- Modelled from the spec: effect of one recognized `(opcode, value)`
pair on the Termios being built by `FromSSH`; unrecognized opcodes
leave it unchanged. -/
def applyOp (t : Termios) (op v : Nat) : Termios :=
  match op with
  | 1 => { t with Cc := Function.update t.Cc VINTR (v % 2 ^ 8) }
  | 2 => { t with Cc := Function.update t.Cc VQUIT (v % 2 ^ 8) }
  | 3 => { t with Cc := Function.update t.Cc VERASE (v % 2 ^ 8) }
  | 4 => { t with Cc := Function.update t.Cc VKILL (v % 2 ^ 8) }
  | 5 => { t with Cc := Function.update t.Cc VEOF (v % 2 ^ 8) }
  | 8 => { t with Cc := Function.update t.Cc VSTART (v % 2 ^ 8) }
  | 9 => { t with Cc := Function.update t.Cc VSTOP (v % 2 ^ 8) }
  | 10 => { t with Cc := Function.update t.Cc VSUSP (v % 2 ^ 8) }
  | 34 => if v ≠ 0 then { t with Iflag := t.Iflag ||| INLCR } else t
  | 35 => if v ≠ 0 then { t with Iflag := t.Iflag ||| IGNCR } else t
  | 36 => if v ≠ 0 then { t with Iflag := t.Iflag ||| ICRNL } else t
  | 38 => if v ≠ 0 then { t with Iflag := t.Iflag ||| IXON } else t
  | 40 => if v ≠ 0 then { t with Iflag := t.Iflag ||| IXOFF } else t
  | 50 => if v ≠ 0 then { t with Lflag := t.Lflag ||| ISIG } else t
  | 51 => if v ≠ 0 then { t with Lflag := t.Lflag ||| ICANON } else t
  | 53 => if v ≠ 0 then { t with Lflag := t.Lflag ||| ECHO } else t
  | 54 => if v ≠ 0 then { t with Lflag := t.Lflag ||| ECHOE } else t
  | 55 => if v ≠ 0 then { t with Lflag := t.Lflag ||| ECHOK } else t
  | 56 => if v ≠ 0 then { t with Lflag := t.Lflag ||| ECHONL } else t
  | 70 => if v ≠ 0 then { t with Oflag := t.Oflag ||| OPOST } else t
  | 90 => if v ≠ 0 then { t with Cflag := t.Cflag ||| CS7 } else t
  | 91 => if v ≠ 0 then { t with Cflag := t.Cflag ||| CS8 } else t
  | 92 => if v ≠ 0 then { t with Cflag := t.Cflag ||| PARENB } else t
  | 93 => if v ≠ 0 then { t with Cflag := t.Cflag ||| PARODD } else t
  | 128 => { t with Ispeed := v }
  | 129 => { t with Ospeed := v }
  | _ => t

/-- Singleton-or-empty pair list used by `ToSSH` flag emission. -/
def iteP (c : Prop) [Decidable c] (p : Nat × Nat) : List (Nat × Nat) :=
  if c then [p] else []

/-- Modelled from the spec: the `(opcode, value)` pairs `ToSSH` emits
for a Termios, in table order: the eight control characters, the flag
bits that are set, and the two speeds. -/
def Termios.toSSHPairs (t : Termios) : List (Nat × Nat) :=
  [(1, t.Cc VINTR), (2, t.Cc VQUIT), (3, t.Cc VERASE), (4, t.Cc VKILL),
   (5, t.Cc VEOF), (8, t.Cc VSTART), (9, t.Cc VSTOP), (10, t.Cc VSUSP)]
  ++ iteP (t.Iflag &&& INLCR ≠ 0) (34, 1)
  ++ iteP (t.Iflag &&& IGNCR ≠ 0) (35, 1)
  ++ iteP (t.Iflag &&& ICRNL ≠ 0) (36, 1)
  ++ iteP (t.Iflag &&& IXON ≠ 0) (38, 1)
  ++ iteP (t.Iflag &&& IXOFF ≠ 0) (40, 1)
  ++ iteP (t.Lflag &&& ISIG ≠ 0) (50, 1)
  ++ iteP (t.Lflag &&& ICANON ≠ 0) (51, 1)
  ++ iteP (t.Lflag &&& ECHO ≠ 0) (53, 1)
  ++ iteP (t.Lflag &&& ECHOE ≠ 0) (54, 1)
  ++ iteP (t.Lflag &&& ECHOK ≠ 0) (55, 1)
  ++ iteP (t.Lflag &&& ECHONL ≠ 0) (56, 1)
  ++ iteP (t.Oflag &&& OPOST ≠ 0) (70, 1)
  ++ iteP (t.Cflag &&& CSIZE = CS7) (90, 1)
  ++ iteP (t.Cflag &&& CSIZE = CS8) (91, 1)
  ++ iteP (t.Cflag &&& PARENB ≠ 0) (92, 1)
  ++ iteP (t.Cflag &&& PARODD ≠ 0) (93, 1)
  ++ [(128, t.Ispeed), (129, t.Ospeed)]

/-- Big-endian 4-byte encoding of a 32-bit value, preceded by the
opcode byte, per the SSH wire convention. -/
def encodePair (p : Nat × Nat) : List Nat :=
  [p.1, p.2 / 2 ^ 24 % 2 ^ 8, p.2 / 2 ^ 16 % 2 ^ 8, p.2 / 2 ^ 8 % 2 ^ 8, p.2 % 2 ^ 8]

/-- Byte encoding of a whole pair list. -/
def encodePairs (ps : List (Nat × Nat)) : List Nat :=
  ps.flatMap encodePair

/-- Modelled from the spec: `ToSSH` produces the encoded pairs followed
by the opcode-0 sentinel. -/
def Termios.ToSSH (t : Termios) : List Nat :=
  encodePairs t.toSSHPairs ++ [0]

/-- Modelled from the spec: the `FromSSH` parse loop.  It stops at the
sentinel, at the end of input, or at a pair truncated before its four
value bytes, and otherwise applies the pair and continues. -/
def parseSSH : List Nat → Termios → Termios
  | [], t => t
  | op :: rest, t =>
    if op = 0 then t
    else
      match rest with
      | b1 :: b2 :: b3 :: b4 :: rest2 =>
        parseSSH rest2 (applyOp t op (b1 * 2 ^ 24 + b2 * 2 ^ 16 + b3 * 2 ^ 8 + b4))
      | _ => t

/-- Modelled from the spec: `FromSSH` parses the byte sequence into a
zero-initialized Termios. -/
def FromSSH (bs : List Nat) : Termios :=
  parseSSH bs Termios.zero

/-- Semantic effect of a pair list: left fold of `applyOp`. -/
def applyPairs (t : Termios) (ps : List (Nat × Nat)) : Termios :=
  ps.foldl (fun a p => applyOp a p.1 p.2) t

/-! ### Parse/encode machinery -/

theorem applyPairs_nil (t : Termios) : applyPairs t [] = t := rfl

theorem applyPairs_cons (t : Termios) (p : Nat × Nat) (ps : List (Nat × Nat)) :
    applyPairs t (p :: ps) = applyPairs (applyOp t p.1 p.2) ps := rfl

theorem applyPairs_append (t : Termios) (ps qs : List (Nat × Nat)) :
    applyPairs t (ps ++ qs) = applyPairs (applyPairs t ps) qs :=
  List.foldl_append ..

theorem applyPairs_iteP (t : Termios) (c : Prop) [Decidable c] (p : Nat × Nat) :
    applyPairs t (iteP c p) = if c then applyOp t p.1 p.2 else t := by
  unfold iteP
  split <;> simp [applyPairs_cons, applyPairs_nil]

theorem parseSSH_nil (t : Termios) : parseSSH [] t = t := rfl

theorem parseSSH_sentinel (bs : List Nat) (t : Termios) :
    parseSSH (0 :: bs) t = t := by
  rw [parseSSH.eq_def]
  simp

/-- One encoded pair at the front of the stream is parsed back to its
`applyOp` effect. -/
theorem parseSSH_encodePair (op v : Nat) (hop : op ≠ 0) (hv : v < 2 ^ 32)
    (bs : List Nat) (t : Termios) :
    parseSSH (encodePair (op, v) ++ bs) t = parseSSH bs (applyOp t op v) := by
  have hv' : v < 4294967296 := by norm_num at hv; exact hv
  have hdec : v / 16777216 % 256 * 16777216 + v / 65536 % 256 * 65536 +
      v / 256 % 256 * 256 + v % 256 = v := by omega
  simp [encodePair, parseSSH, hop]
  rw [hdec]

/-- A whole encoded pair list at the front of the stream is parsed back
to its fold of `applyOp` effects. -/
theorem parseSSH_encodePairs (ps : List (Nat × Nat))
    (h : ∀ p ∈ ps, p.1 ≠ 0 ∧ p.2 < 2 ^ 32) (bs : List Nat) (t : Termios) :
    parseSSH (encodePairs ps ++ bs) t = parseSSH bs (applyPairs t ps) := by
  induction ps generalizing t with
  | nil => simp [encodePairs, applyPairs_nil]
  | cons p ps ih =>
    obtain ⟨hop, hv⟩ := h p (List.mem_cons_self ..)
    have hrest : ∀ q ∈ ps, q.1 ≠ 0 ∧ q.2 < 2 ^ 32 :=
      fun q hq => h q (List.mem_cons_of_mem _ hq)
    obtain ⟨op, v⟩ := p
    calc parseSSH (encodePairs ((op, v) :: ps) ++ bs) t
        = parseSSH (encodePair (op, v) ++ (encodePairs ps ++ bs)) t := by
          simp [encodePairs]
      _ = parseSSH (encodePairs ps ++ bs) (applyOp t op v) :=
          parseSSH_encodePair op v hop hv _ _
      _ = parseSSH bs (applyPairs (applyOp t op v) ps) := ih hrest _
      _ = parseSSH bs (applyPairs t ((op, v) :: ps)) := by
          rw [applyPairs_cons]

theorem forall_mem_iteP {c : Prop} [Decidable c] {q : Nat × Nat}
    {P : Nat × Nat → Prop} : (∀ p ∈ iteP c q, P p) ↔ (c → P q) := by
  unfold iteP
  split <;> simp_all

/-- Every pair `ToSSH` emits has a nonzero opcode and a 32-bit value. -/
theorem toSSHPairs_wf (t : Termios) (h : t.wf) :
    ∀ p ∈ t.toSSHPairs, p.1 ≠ 0 ∧ p.2 < 2 ^ 32 := by
  obtain ⟨hcc, his, hos⟩ := h
  have hb : ∀ i : Fin 32, t.Cc i < 2 ^ 32 :=
    fun i => lt_trans (hcc i) (by norm_num)
  simp only [Termios.toSSHPairs, List.forall_mem_append, List.forall_mem_cons,
    List.forall_mem_nil, forall_mem_iteP, and_true]
  norm_num at hb his hos ⊢
  simp [hb, his, hos]

/-- Round trip at the pair level: parsing `ToSSH t` applies exactly the
emitted pairs to a zero Termios. -/
theorem FromSSH_ToSSH (t : Termios) (h : t.wf) :
    FromSSH t.ToSSH = applyPairs Termios.zero t.toSSHPairs := by
  unfold FromSSH Termios.ToSSH
  rw [parseSSH_encodePairs _ (toSSHPairs_wf t h), parseSSH_sentinel]

/-! ### Bit-level helper lemmas -/

theorem or_ite_mask (A m : Nat) (c : Prop) [Decidable c] :
    (if c then A ||| m else A) = A ||| (if c then m else 0) := by
  split <;> simp

theorem ite_and_bit (x m i : Nat) (h : m = 2 ^ i) :
    (if ¬(x &&& m = 0) then m else 0) = x &&& m := by
  subst h
  rw [Nat.and_two_pow]
  cases h' : x.testBit i <;> simp

/-- Evaluation of the Iflag component of the pair-level round trip. -/
theorem roundtrip_Iflag (t : Termios) :
    (applyPairs Termios.zero t.toSSHPairs).Iflag =
      t.Iflag &&& (INLCR ||| IGNCR ||| ICRNL ||| IXON ||| IXOFF) := by
  simp only [Termios.toSSHPairs, applyPairs_append, applyPairs_iteP,
    applyPairs_cons, applyPairs_nil, applyOp]
  simp only [ne_eq, one_ne_zero, not_false_eq_true, if_true]
  simp only [apply_ite Termios.Iflag, ite_self, Termios.zero, or_ite_mask]
  rw [ite_and_bit t.Iflag INLCR 6 (by norm_num [INLCR]),
    ite_and_bit t.Iflag IGNCR 7 (by norm_num [IGNCR]),
    ite_and_bit t.Iflag ICRNL 8 (by norm_num [ICRNL]),
    ite_and_bit t.Iflag IXON 10 (by norm_num [IXON]),
    ite_and_bit t.Iflag IXOFF 12 (by norm_num [IXOFF])]
  rw [Nat.zero_or, ← Nat.and_or_distrib_left, ← Nat.and_or_distrib_left,
    ← Nat.and_or_distrib_left, ← Nat.and_or_distrib_left]

/-- Evaluation of the Oflag component of the pair-level round trip. -/
theorem roundtrip_Oflag (t : Termios) :
    (applyPairs Termios.zero t.toSSHPairs).Oflag = t.Oflag &&& OPOST := by
  simp only [Termios.toSSHPairs, applyPairs_append, applyPairs_iteP,
    applyPairs_cons, applyPairs_nil, applyOp]
  simp only [ne_eq, one_ne_zero, not_false_eq_true, if_true]
  simp only [apply_ite Termios.Oflag, ite_self, Termios.zero, or_ite_mask]
  rw [ite_and_bit t.Oflag OPOST 0 (by norm_num [OPOST]), Nat.zero_or]

/-- Evaluation of the Lflag component of the pair-level round trip. -/
theorem roundtrip_Lflag (t : Termios) :
    (applyPairs Termios.zero t.toSSHPairs).Lflag =
      t.Lflag &&& (ISIG ||| ICANON ||| ECHO ||| ECHOE ||| ECHOK ||| ECHONL) := by
  simp only [Termios.toSSHPairs, applyPairs_append, applyPairs_iteP,
    applyPairs_cons, applyPairs_nil, applyOp]
  simp only [ne_eq, one_ne_zero, not_false_eq_true, if_true]
  simp only [apply_ite Termios.Lflag, ite_self, Termios.zero, or_ite_mask]
  rw [ite_and_bit t.Lflag ISIG 0 (by norm_num [ISIG]),
    ite_and_bit t.Lflag ICANON 1 (by norm_num [ICANON]),
    ite_and_bit t.Lflag ECHO 3 (by norm_num [ECHO]),
    ite_and_bit t.Lflag ECHOE 4 (by norm_num [ECHOE]),
    ite_and_bit t.Lflag ECHOK 5 (by norm_num [ECHOK]),
    ite_and_bit t.Lflag ECHONL 6 (by norm_num [ECHONL])]
  rw [Nat.zero_or, ← Nat.and_or_distrib_left, ← Nat.and_or_distrib_left,
    ← Nat.and_or_distrib_left, ← Nat.and_or_distrib_left,
    ← Nat.and_or_distrib_left]

/-- Evaluation of the Cflag component of the pair-level round trip. -/
theorem roundtrip_Cflag (t : Termios) :
    (applyPairs Termios.zero t.toSSHPairs).Cflag =
      ((if t.Cflag &&& CSIZE = CS7 then CS7 else 0) |||
        (if t.Cflag &&& CSIZE = CS8 then CS8 else 0)) |||
      (t.Cflag &&& PARENB) ||| (t.Cflag &&& PARODD) := by
  simp only [Termios.toSSHPairs, applyPairs_append, applyPairs_iteP,
    applyPairs_cons, applyPairs_nil, applyOp]
  simp only [ne_eq, one_ne_zero, not_false_eq_true, if_true]
  simp only [apply_ite Termios.Cflag, ite_self, Termios.zero, or_ite_mask]
  rw [ite_and_bit t.Cflag PARENB 8 (by norm_num [PARENB]),
    ite_and_bit t.Cflag PARODD 9 (by norm_num [PARODD]), Nat.zero_or]

/-- Evaluation of the speed components of the pair-level round trip. -/
theorem roundtrip_speeds (t : Termios) :
    (applyPairs Termios.zero t.toSSHPairs).Ispeed = t.Ispeed ∧
      (applyPairs Termios.zero t.toSSHPairs).Ospeed = t.Ospeed := by
  constructor <;>
    simp only [Termios.toSSHPairs, applyPairs_append, applyPairs_iteP,
      applyPairs_cons, applyPairs_nil, applyOp, ne_eq, one_ne_zero,
      not_false_eq_true, if_true, apply_ite Termios.Ispeed,
      apply_ite Termios.Ospeed, ite_self, Termios.zero]

/-- Evaluation of the control-character components of the pair-level
round trip at the eight slots of the opcode table. -/
theorem roundtrip_Cc (t : Termios) :
    (applyPairs Termios.zero t.toSSHPairs).Cc VINTR = t.Cc VINTR % 2 ^ 8 ∧
    (applyPairs Termios.zero t.toSSHPairs).Cc VQUIT = t.Cc VQUIT % 2 ^ 8 ∧
    (applyPairs Termios.zero t.toSSHPairs).Cc VERASE = t.Cc VERASE % 2 ^ 8 ∧
    (applyPairs Termios.zero t.toSSHPairs).Cc VKILL = t.Cc VKILL % 2 ^ 8 ∧
    (applyPairs Termios.zero t.toSSHPairs).Cc VEOF = t.Cc VEOF % 2 ^ 8 ∧
    (applyPairs Termios.zero t.toSSHPairs).Cc VSTART = t.Cc VSTART % 2 ^ 8 ∧
    (applyPairs Termios.zero t.toSSHPairs).Cc VSTOP = t.Cc VSTOP % 2 ^ 8 ∧
    (applyPairs Termios.zero t.toSSHPairs).Cc VSUSP = t.Cc VSUSP % 2 ^ 8 := by
  refine ⟨?_, ?_, ?_, ?_, ?_, ?_, ?_, ?_⟩ <;>
  · simp only [Termios.toSSHPairs, applyPairs_append, applyPairs_iteP,
      applyPairs_cons, applyPairs_nil, applyOp]
    simp only [ne_eq, one_ne_zero, not_false_eq_true, if_true]
    simp only [apply_ite Termios.Cc, ite_self, Termios.zero]
    simp +decide [Function.update, VINTR, VQUIT, VERASE, VKILL, VEOF, VSTART,
      VSTOP, VSUSP]

/-- Character-size selection of the round trip: when the CSIZE field of
`x` is not the (untransmittable) CS6 value, the CS7/CS8 opcode pair
reproduces the field. -/
theorem csize_sel (x : Nat) (h : x &&& CSIZE ≠ 0o20) :
    ((if x &&& CSIZE = CS7 then CS7 else 0) |||
      (if x &&& CSIZE = CS8 then CS8 else 0)) = x &&& CSIZE := by
  simp only [CSIZE, CS7, CS8] at h ⊢
  have hle : x &&& 48 ≤ 48 := Nat.and_le_right
  have hinv : (x &&& 48) &&& 48 = x &&& 48 := by
    rw [Nat.and_assoc]
    norm_num
  generalize hg : x &&& 48 = c at h hle hinv
  interval_cases c <;> revert h hinv <;> decide

/-- Bits cleared by an and-not survive no mask contained in it. -/
theorem ldiff_and_eq_zero (x m s : Nat) (h : s &&& m = s) :
    (Nat.ldiff x m) &&& s = 0 := by
  apply Nat.eq_of_testBit_eq
  intro i
  have hi := congrArg (fun n => n.testBit i) h
  simp only [Nat.testBit_and] at hi
  simp only [Nat.testBit_and, Nat.testBit_ldiff, Nat.zero_testBit]
  cases hs : s.testBit i <;> simp_all

/-- Bits set by an or cover any mask contained in what was or-ed in. -/
theorem or_and_of_subset (x m s : Nat) (h : s &&& m = s) : (x ||| m) &&& s = s := by
  apply Nat.eq_of_testBit_eq
  intro i
  have hi := congrArg (fun n => n.testBit i) h
  simp only [Nat.testBit_and] at hi
  simp only [Nat.testBit_and, Nat.testBit_or]
  cases hs : s.testBit i <;> simp_all

/-- Masking twice with the same mask is the same as masking once. -/
theorem and_mask_idem (x m : Nat) : (x &&& m) &&& m = x &&& m := by
  rw [Nat.and_assoc, Nat.and_self]

/-- Clearing the same bits twice is the same as clearing them once. -/
theorem ldiff_idem (x m : Nat) : Nat.ldiff (Nat.ldiff x m) m = Nat.ldiff x m := by
  apply Nat.eq_of_testBit_eq
  intro i
  simp only [Nat.testBit_ldiff]
  cases x.testBit i <;> cases m.testBit i <;> rfl

/-- One truncated pair (an opcode with fewer than four value bytes)
stops the parse. -/
theorem parseSSH_truncated (op : Nat) (hop : op ≠ 0) (tail : List Nat)
    (h : tail.length < 4) (t : Termios) : parseSSH (op :: tail) t = t := by
  rcases tail with _ | ⟨a, _ | ⟨b, _ | ⟨c, _ | ⟨d, rest⟩⟩⟩⟩
  · rw [parseSSH.eq_def]; simp [hop]
  · rw [parseSSH.eq_def]; simp [hop]
  · rw [parseSSH.eq_def]; simp [hop]
  · rw [parseSSH.eq_def]; simp [hop]
  · simp at h
    omega

/-- Distribution of an and over an or on the left operand. -/
theorem or_and_right (a b c : Nat) : (a ||| b) &&& c = (a &&& c) ||| (b &&& c) := by
  apply Nat.eq_of_testBit_eq
  intro i
  simp only [Nat.testBit_and, Nat.testBit_or]
  cases a.testBit i <;> cases b.testBit i <;> cases c.testBit i <;> rfl

/-! ### Claims about the SSH codec -/

/-- C1 counterexample: for the Termios whose Cflag holds the CS6
character-size value, the round trip does not reproduce the Cflag
masked to the three SSH control-mode bits (the CS6 field value cannot
be transmitted), refuting the claim for arbitrary Termios. -/
theorem C1_counterexample :
    Termios.wf { Termios.zero with Cflag := 0o20 } ∧
      ¬(FromSSH (Termios.ToSSH { Termios.zero with Cflag := 0o20 })).Cflag =
          ({ Termios.zero with Cflag := 0o20 } : Termios).Cflag &&&
            (CS7 ||| CS8 ||| PARENB ||| PARODD) := by
  decide

/-- C1 (amended): for every well-formed Termios whose Cflag
character-size field is not CS6, `FromSSH (ToSSH t)` reproduces the
Iflag/Oflag/Lflag bits of the opcode table, the eight `Cc` slots of the
table, `Ispeed` and `Ospeed`, and the Cflag masked to exactly
CS7/CS8/PARENB/PARODD. -/
theorem C1_roundtrip (t : Termios) (hwf : t.wf)
    (hcs : t.Cflag &&& CSIZE ≠ 0o20) :
    (FromSSH t.ToSSH).Iflag &&& (INLCR ||| IGNCR ||| ICRNL ||| IXON ||| IXOFF) =
        t.Iflag &&& (INLCR ||| IGNCR ||| ICRNL ||| IXON ||| IXOFF) ∧
    (FromSSH t.ToSSH).Oflag &&& OPOST = t.Oflag &&& OPOST ∧
    (FromSSH t.ToSSH).Lflag &&& (ISIG ||| ICANON ||| ECHO ||| ECHOE ||| ECHOK ||| ECHONL) =
        t.Lflag &&& (ISIG ||| ICANON ||| ECHO ||| ECHOE ||| ECHOK ||| ECHONL) ∧
    (FromSSH t.ToSSH).Cc VINTR = t.Cc VINTR ∧
    (FromSSH t.ToSSH).Cc VQUIT = t.Cc VQUIT ∧
    (FromSSH t.ToSSH).Cc VERASE = t.Cc VERASE ∧
    (FromSSH t.ToSSH).Cc VKILL = t.Cc VKILL ∧
    (FromSSH t.ToSSH).Cc VEOF = t.Cc VEOF ∧
    (FromSSH t.ToSSH).Cc VSTART = t.Cc VSTART ∧
    (FromSSH t.ToSSH).Cc VSTOP = t.Cc VSTOP ∧
    (FromSSH t.ToSSH).Cc VSUSP = t.Cc VSUSP ∧
    (FromSSH t.ToSSH).Ispeed = t.Ispeed ∧
    (FromSSH t.ToSSH).Ospeed = t.Ospeed ∧
    (FromSSH t.ToSSH).Cflag = t.Cflag &&& (CS7 ||| CS8 ||| PARENB ||| PARODD) := by
  rw [FromSSH_ToSSH t hwf]
  obtain ⟨hcc, his, hos⟩ := hwf
  obtain ⟨h1, h2, h3, h4, h5, h6, h7, h8⟩ := roundtrip_Cc t
  refine ⟨?_, ?_, ?_, ?_, ?_, ?_, ?_, ?_, ?_, ?_, ?_, ?_, ?_, ?_⟩
  · rw [roundtrip_Iflag]; exact and_mask_idem _ _
  · rw [roundtrip_Oflag]; exact and_mask_idem _ _
  · rw [roundtrip_Lflag]; exact and_mask_idem _ _
  · rw [h1]; exact Nat.mod_eq_of_lt (hcc VINTR)
  · rw [h2]; exact Nat.mod_eq_of_lt (hcc VQUIT)
  · rw [h3]; exact Nat.mod_eq_of_lt (hcc VERASE)
  · rw [h4]; exact Nat.mod_eq_of_lt (hcc VKILL)
  · rw [h5]; exact Nat.mod_eq_of_lt (hcc VEOF)
  · rw [h6]; exact Nat.mod_eq_of_lt (hcc VSTART)
  · rw [h7]; exact Nat.mod_eq_of_lt (hcc VSTOP)
  · rw [h8]; exact Nat.mod_eq_of_lt (hcc VSUSP)
  · exact (roundtrip_speeds t).1
  · exact (roundtrip_speeds t).2
  · rw [roundtrip_Cflag, csize_sel t.Cflag hcs]
    rw [← Nat.and_or_distrib_left, ← Nat.and_or_distrib_left]
    congr 1

/-- Concrete Termios used to witness `C1_roundtrip`. -/
def C1wt : Termios :=
  { Iflag := 0o2777, Oflag := 1, Cflag := 0o1464, Lflag := 0o177
    Cc := fun _ => 65, Ispeed := 19200, Ospeed := 300, Wz := Winsize.zero }

/-- C1 witness: the amended round-trip theorem applied at a concrete
well-formed Termios. -/
theorem C1_witness :
    (FromSSH C1wt.ToSSH).Iflag &&& (INLCR ||| IGNCR ||| ICRNL ||| IXON ||| IXOFF) =
      C1wt.Iflag &&& (INLCR ||| IGNCR ||| ICRNL ||| IXON ||| IXOFF) :=
  (C1_roundtrip C1wt (by decide) (by decide)).1

/-- C4: `FromSSH` on a byte sequence truncated in the middle of a pair,
or simply lacking the opcode-0 sentinel, still yields the Termios
holding exactly the attributes of the fully parsed pairs (applied to a
zero value), without any failure. -/
theorem C4_truncated (ps : List (Nat × Nat)) (h : ∀ p ∈ ps, p.1 ≠ 0 ∧ p.2 < 2 ^ 32)
    (op : Nat) (hop : op ≠ 0) (tail : List Nat) (htail : tail.length < 4) :
    FromSSH (encodePairs ps ++ op :: tail) = applyPairs Termios.zero ps ∧
      FromSSH (encodePairs ps) = applyPairs Termios.zero ps := by
  constructor
  · unfold FromSSH
    rw [parseSSH_encodePairs ps h]
    exact parseSSH_truncated op hop tail htail _
  · unfold FromSSH
    conv_lhs => rw [← List.append_nil (encodePairs ps)]
    rw [parseSSH_encodePairs ps h]
    exact parseSSH_nil _

/-- C4 witness: the truncation theorem applied to a concrete stream of
one complete pair followed by a pair cut after two value bytes. -/
theorem C4_witness :
    FromSSH (encodePairs [(36, 1)] ++ 53 :: [0, 0]) = applyPairs Termios.zero [(36, 1)] ∧
      FromSSH (encodePairs [(36, 1)]) = applyPairs Termios.zero [(36, 1)] :=
  C4_truncated [(36, 1)] (by decide) 53 (by decide) [0, 0] (by decide)

/-! ### Claims about the mode transitions -/

/-- C2: after `Raw()` the break/parity/strip/newline/flow-control input
flags, output post-processing, the echo/canonical/signal/extended local
flags and parity-enable are all clear, the character-size field is CS8,
and the control characters request one byte with no timeout. -/
theorem C2_raw (t : Termios) :
    t.Raw.Iflag &&&
        (IGNBRK ||| BRKINT ||| PARMRK ||| ISTRIP ||| INLCR ||| IGNCR ||| ICRNL ||| IXON) = 0 ∧
    t.Raw.Oflag &&& OPOST = 0 ∧
    t.Raw.Lflag &&& (ECHO ||| ECHONL ||| ICANON ||| ISIG ||| IEXTEN) = 0 ∧
    t.Raw.Cflag &&& PARENB = 0 ∧
    t.Raw.Cflag &&& CSIZE = CS8 ∧
    t.Raw.Cc VMIN = 1 ∧
    t.Raw.Cc VTIME = 0 := by
  simp only [Termios.Raw]
  refine ⟨?_, ?_, ?_, ?_, ?_, ?_, ?_⟩
  · exact ldiff_and_eq_zero _ _ _ (by decide)
  · exact ldiff_and_eq_zero _ _ _ (by decide)
  · exact ldiff_and_eq_zero _ _ _ (by decide)
  · rw [or_and_right, ldiff_and_eq_zero _ _ _ (by decide)]
    decide
  · rw [or_and_right, ldiff_and_eq_zero _ _ _ (by decide)]
    decide
  · simp +decide [Function.update, VMIN, VTIME]
  · simp +decide [Function.update, VMIN, VTIME]

/-- C3 counterexample: at the zero Termios, `Cook()` does not set the
break-interrupt input flag (per the spec that flag is added by the
caller, not by `Cook()`), refuting the claim as stated. -/
theorem C3_counterexample :
    ¬((Termios.Cook Termios.zero).Iflag &&& BRKINT = BRKINT ∧
      (Termios.Cook Termios.zero).Iflag &&& IGNPAR = IGNPAR ∧
      (Termios.Cook Termios.zero).Iflag &&& ISTRIP = ISTRIP ∧
      (Termios.Cook Termios.zero).Iflag &&& ICRNL = ICRNL ∧
      (Termios.Cook Termios.zero).Iflag &&& IXON = IXON ∧
      (Termios.Cook Termios.zero).Oflag &&& OPOST = OPOST ∧
      (Termios.Cook Termios.zero).Lflag &&& ISIG = ISIG ∧
      (Termios.Cook Termios.zero).Lflag &&& ICANON = ICANON) := by
  decide

/-- C3 (amended): after `Cook()` the parity-check, strip, CR-to-NL and
flow-control input flags are set, output post-processing is set, and
the signal and canonical local flags are set; the break-interrupt flag
is left to the caller. -/
theorem C3_cook (t : Termios) :
    t.Cook.Iflag &&& IGNPAR = IGNPAR ∧
    t.Cook.Iflag &&& ISTRIP = ISTRIP ∧
    t.Cook.Iflag &&& ICRNL = ICRNL ∧
    t.Cook.Iflag &&& IXON = IXON ∧
    t.Cook.Oflag &&& OPOST = OPOST ∧
    t.Cook.Lflag &&& ISIG = ISIG ∧
    t.Cook.Lflag &&& ICANON = ICANON := by
  simp only [Termios.Cook]
  refine ⟨?_, ?_, ?_, ?_, ?_, ?_, ?_⟩ <;> exact or_and_of_subset _ _ _ (by decide)

/-- C5: `Raw()` is idempotent: applying it twice gives exactly the same
Termios as applying it once. -/
theorem C5_raw_idem (t : Termios) : t.Raw.Raw = t.Raw := by
  refine Termios.ext ?_ ?_ ?_ ?_ ?_ ?_ ?_ ?_
  · simp only [Termios.Raw]
    exact ldiff_idem _ _
  · simp only [Termios.Raw]
    exact ldiff_idem _ _
  · simp only [Termios.Raw]
    apply Nat.eq_of_testBit_eq
    intro i
    simp only [Nat.testBit_or, Nat.testBit_ldiff]
    cases hx : t.Cflag.testBit i <;> cases hm : CSIZE.testBit i <;>
      cases hp : PARENB.testBit i <;> cases hc : CS8.testBit i <;> rfl
  · simp only [Termios.Raw]
    exact ldiff_idem _ _
  · simp only [Termios.Raw]
    funext i
    simp only [Function.update]
    split_ifs <;> rfl
  · rfl
  · rfl
  · rfl

/-! ### Models of termios_linux.go

These functions are given in the sources.  Each kernel call is embedded
as an environment record holding the outcome the kernel produces for
it, making the functions pure. -/

/-- Outcome of the TCGETS ioctl behind `Attr`: the errno and the
Termios the ioctl leaves in the caller's buffer. -/
structure AttrEnv where
  errno : Nat
  filled : Termios

/-- `Attr` (`termios_linux.go`): fetch attributes; on success mask
`Ispeed`/`Ospeed` with CBAUD|CBAUDEX, on failure return the buffer
as-is together with the errno. -/
def Attr (e : AttrEnv) : Termios × Option Nat :=
  if e.errno ≠ 0 then (e.filled, some e.errno)
  else
    ({ e.filled with
        Ispeed := e.filled.Ispeed &&& (CBAUD ||| CBAUDEX)
        Ospeed := e.filled.Ospeed &&& (CBAUD ||| CBAUDEX) }, none)

/-- Outcome of the TIOCGPTN ioctl on a PTY master: errno and the
kernel-reported PTY number. -/
structure PtsEnv where
  errno : Nat
  ptn : Nat

/-- `PTSNumber` (`termios_linux.go`): a fresh TIOCGPTN query; zero and
the error on failure. -/
def PTSNumber (e : PtsEnv) : Nat × Option Nat :=
  if e.errno ≠ 0 then (0, some e.errno) else (e.ptn, none)

/-- `PTSName` (`termios_linux.go`): "/dev/pts/" plus the decimal
rendering of a fresh `PTSNumber` query; an empty path and the error on
failure. -/
def PTSName (e : PtsEnv) : String × Option Nat :=
  match PTSNumber e with
  | (_, some er) => ("", some er)
  | (n, none) => ("/dev/pts/" ++ Nat.repr n, none)

/-- Kernel descriptor table: the next fd the kernel hands out, and the
list of open fds. -/
structure Kernel where
  nextFd : Nat
  fds : List Nat

/-- A successful open allocates a fresh descriptor. -/
def kOpen (k : Kernel) : Nat × Kernel :=
  (k.nextFd, ⟨k.nextFd + 1, k.nextFd :: k.fds⟩)

/-- Closing removes the descriptor from the open table. -/
def kClose (fd : Nat) (k : Kernel) : Kernel :=
  ⟨k.nextFd, k.fds.erase fd⟩

/-- Outcomes the kernel produces for the calls `OpenPTY` makes: the
/dev/ptmx open, the TIOCSPTLCK unlock, the TIOCGPTN query, and the
slave open. -/
structure PTYEnv where
  ptmxErrno : Option Nat
  unlockErrno : Nat
  ptsErrno : Nat
  ptn : Nat
  slaveErrno : Option Nat

/-- Result of a successful `OpenPTY`: master and slave descriptors and
the slave path the slave was opened at. -/
structure PTYRes where
  master : Nat
  slave : Nat
  slavePath : String

/-- `OpenPTY` (`termios_linux.go`): open /dev/ptmx, unlock the slave,
resolve the slave path with `PTSName`, open the slave; on a failure of
any later step the already-open master is closed before the error is
returned. -/
def OpenPTY (e : PTYEnv) (k : Kernel) : Except Nat PTYRes × Kernel :=
  match e.ptmxErrno with
  | some er => (Except.error er, k)
  | none =>
    let master := (kOpen k).1
    let k1 := (kOpen k).2
    if e.unlockErrno ≠ 0 then (Except.error e.unlockErrno, kClose master k1)
    else
      match PTSName ⟨e.ptsErrno, e.ptn⟩ with
      | (_, some er) => (Except.error er, kClose master k1)
      | (path, none) =>
        match e.slaveErrno with
        | some er => (Except.error er, kClose master k1)
        | none =>
          (Except.ok ⟨master, (kOpen k1).1, path⟩, (kOpen k1).2)

/-- The PTY pair record: either side may be absent (a nil fd in Go). -/
structure PTYm where
  master : Option Nat
  slave : Option Nat

/-- `Close` (`termios_linux.go`): close both sides, recording a nil
descriptor as a per-side error instead of skipping it, and combine any
failures into one message joined with a space, slave side first. -/
def PTYClose (env : Nat → Option String) (p : PTYm) : Option String :=
  let slaveErr : Option String :=
    match p.slave with
    | none => some "Slave FD nil"
    | some fd => env fd
  let masterErr : Option String :=
    match p.master with
    | none => some "Master FD nil"
    | some fd => env fd
  match slaveErr, masterErr with
  | none, none => none
  | some se, none => some ("Slave: " ++ se)
  | none, some me => some ("Master: " ++ me)
  | some se, some me => some ("Slave: " ++ se ++ " " ++ "Master: " ++ me)

/-- Result of `GetPass`: the password prefix on a line terminator, the
bufferspace error, or a runtime panic from slicing past the capacity. -/
inductive GPResult where
  | password (pw : List Nat) (store : List Nat)
  | bufError (store : List Nat)
  | panicked (store : List Nat)
deriving Repr, DecidableEq

/-- `clearbuf` (`termios_linux.go`) applied to the slice `store[:k]`:
zero the first `k` cells of the underlying store. -/
def clearbuf (store : List Nat) (k : Nat) : List Nat :=
  store.mapIdx (fun i v => if i < k then 0 else v)

/-- The read loop of `GetPass` (`termios_linux.go`).  `input i` is the
outcome of the read at iteration `i` (`none` a read error, `some b` a
byte); `len` is the length of the password slice, `store` its
underlying array of size `cap ≥ len`, and `fuel = len - i` the number
of iterations left.  A read error zeroes `store[:i+1]` and continues
with a zero byte; a newline or carriage return returns `store[:i]`;
when the slice is full the code slices `pbuf[:len+1]`, which zeroes
`store[:len+1]` if the capacity allows it and panics otherwise. -/
def gpLoop (input : Nat → Option Nat) (len : Nat) : Nat → List Nat → GPResult
  | 0, store =>
    if len + 1 ≤ store.length then GPResult.bufError (clearbuf store (len + 1))
    else GPResult.panicked store
  | fuel + 1, store =>
    let i := len - (fuel + 1)
    match input i with
    | none =>
      if i + 1 ≤ store.length then
        gpLoop input len fuel ((clearbuf store (i + 1)).set i 0)
      else GPResult.panicked store
    | some b =>
      if b = 10 ∨ b = 13 then GPResult.password (store.take i) store
      else gpLoop input len fuel (store.set i b)

/-- `GetPass` (`termios_linux.go`) reduced to its read loop: the
echo-off attribute juggling is environment interaction that does not
affect the buffer contract under scrutiny. -/
def GetPass (input : Nat → Option Nat) (len : Nat) (store : List Nat) : GPResult :=
  gpLoop input len len store

/-! ### Claims about termios_linux.go -/

/-- C10: whenever `Attr` returns no error, the speed fields of the
returned Termios hold only bits inside CBAUD|CBAUDEX; on an error the
buffer is returned unmasked together with the raw errno. -/
theorem C10_attr (e : AttrEnv) :
    ((Attr e).2 = none →
      (Attr e).1.Ispeed &&& (CBAUD ||| CBAUDEX) = (Attr e).1.Ispeed ∧
        (Attr e).1.Ospeed &&& (CBAUD ||| CBAUDEX) = (Attr e).1.Ospeed) ∧
    (∀ er, (Attr e).2 = some er → er = e.errno ∧ (Attr e).1 = e.filled) := by
  unfold Attr
  by_cases h : e.errno = 0
  · simp only [h, ne_eq, not_true_eq_false, if_false, reduceIte]
    constructor
    · intro _
      exact ⟨and_mask_idem _ _, and_mask_idem _ _⟩
    · intro er her
      simp at her
  · simp only [h, ne_eq, not_false_eq_true, if_true, reduceIte]
    constructor
    · intro hn
      simp at hn
    · intro er her
      simp at her
      exact ⟨her.symm, trivial⟩

/-- C10 witness: `Attr` applied at a concrete successful environment. -/
theorem C10_witness :
    (Attr ⟨0, C1wt⟩).1.Ispeed &&& (CBAUD ||| CBAUDEX) = (Attr ⟨0, C1wt⟩).1.Ispeed ∧
      (Attr ⟨0, C1wt⟩).1.Ospeed &&& (CBAUD ||| CBAUDEX) = (Attr ⟨0, C1wt⟩).1.Ospeed :=
  (C10_attr ⟨0, C1wt⟩).1 rfl

/-- C9: `PTSName` derives the slave path purely as "/dev/pts/" plus
the decimal PTY number of a fresh kernel query, propagates the query
error with an empty path, and depends on nothing but the current query
outcome (no cached state). -/
theorem C9_ptsname (e : PtsEnv) :
    (e.errno = 0 → PTSName e = ("/dev/pts/" ++ Nat.repr e.ptn, none)) ∧
    (e.errno ≠ 0 → PTSName e = ("", some e.errno)) ∧
    (∀ e2 : PtsEnv, PTSNumber e = PTSNumber e2 → PTSName e = PTSName e2) := by
  refine ⟨?_, ?_, ?_⟩
  · intro h
    simp [PTSName, PTSNumber, h]
  · intro h
    simp [PTSName, PTSNumber, h]
  · intro e2 h
    unfold PTSName
    rw [h]

/-- C9 witness: `PTSName` at a concrete successful query. -/
theorem C9_witness : PTSName ⟨0, 5⟩ = ("/dev/pts/" ++ Nat.repr 5, none) :=
  (C9_ptsname ⟨0, 5⟩).1 rfl

/-- C7: `Close` succeeds exactly when both sides are present and both
close calls succeed; an absent side is reported as its own error, and
each failing side is named in the single combined message, the master
side being attempted and reported independently of the slave side. -/
theorem C7_close (env : Nat → Option String) (p : PTYm) :
    (PTYClose env p = none ↔
      (∃ s, p.slave = some s ∧ env s = none) ∧
        (∃ m, p.master = some m ∧ env m = none)) ∧
    (p.slave = none → p.master = none →
      PTYClose env p =
        some ("Slave: " ++ "Slave FD nil" ++ " " ++ "Master: " ++ "Master FD nil")) ∧
    (p.slave = none → ∀ m, p.master = some m → env m = none →
      PTYClose env p = some ("Slave: " ++ "Slave FD nil")) ∧
    (p.slave = none → ∀ m em, p.master = some m → env m = some em →
      PTYClose env p = some ("Slave: " ++ "Slave FD nil" ++ " " ++ "Master: " ++ em)) ∧
    (∀ s es, p.slave = some s → env s = some es → p.master = none →
      PTYClose env p = some ("Slave: " ++ es ++ " " ++ "Master: " ++ "Master FD nil")) ∧
    (∀ s, p.slave = some s → env s = none → p.master = none →
      PTYClose env p = some ("Master: " ++ "Master FD nil")) ∧
    (∀ s es m, p.slave = some s → env s = some es → p.master = some m → env m = none →
      PTYClose env p = some ("Slave: " ++ es)) ∧
    (∀ s m em, p.slave = some s → env s = none → p.master = some m → env m = some em →
      PTYClose env p = some ("Master: " ++ em)) ∧
    (∀ s es m em, p.slave = some s → env s = some es → p.master = some m →
      env m = some em →
      PTYClose env p = some ("Slave: " ++ es ++ " " ++ "Master: " ++ em)) := by
  rcases hs : p.slave with _ | s <;> rcases hm : p.master with _ | m
  · simp +contextual [PTYClose, hs, hm]
  · rcases henv : env m with _ | em <;> simp +contextual [PTYClose, hs, hm, henv]
  · rcases henv : env s with _ | es <;> simp +contextual [PTYClose, hs, hm, henv]
  · rcases henvs : env s with _ | es <;> rcases henvm : env m with _ | em <;>
      simp +contextual [PTYClose, hs, hm, henvs, henvm]

/-- C7 witness: closing a pair whose slave is absent while the master
close succeeds yields the error naming the slave side. -/
theorem C7_witness :
    PTYClose (fun _ => none) ⟨some 3, none⟩ = some ("Slave: " ++ "Slave FD nil") :=
  ((C7_close (fun _ => none) ⟨some 3, none⟩).2.2.1) rfl 3 rfl rfl

/-- C6: `OpenPTY` either returns two distinct open descriptors with
the slave path derived from the kernel-reported PTY number, or fails
with an error leaving the set of open descriptors exactly as it was
(the already-open master is closed on the way out). -/
theorem C6_openpty (e : PTYEnv) (k : Kernel) :
    (∀ r, (OpenPTY e k).1 = Except.ok r →
      r.master ≠ r.slave ∧ r.master ∈ (OpenPTY e k).2.fds ∧
        r.slave ∈ (OpenPTY e k).2.fds ∧
        r.slavePath = "/dev/pts/" ++ Nat.repr e.ptn) ∧
    (∀ er, (OpenPTY e k).1 = Except.error er → (OpenPTY e k).2.fds = k.fds) := by
  unfold OpenPTY kOpen kClose PTSName PTSNumber
  rcases hp : e.ptmxErrno with _ | er0
  · by_cases hu : e.unlockErrno = 0
    · by_cases hg : e.ptsErrno = 0
      · rcases hsl : e.slaveErrno with _ | er1
        · simp [hu, hg, hsl]
        · simp [hu, hg, hsl, List.erase_cons_head]
      · simp [hu, hg, List.erase_cons_head]
    · simp [hu, List.erase_cons_head]
  · simp

/-- C6 witness: a fully successful allocation yields distinct open
descriptors and the derived slave path. -/
theorem C6_witness :
    (OpenPTY ⟨none, 0, 0, 7, none⟩ ⟨4, [0, 1, 2]⟩).1 =
        Except.ok ⟨4, 5, "/dev/pts/" ++ Nat.repr 7⟩ ∧
      (4 : Nat) ≠ 5 ∧
        4 ∈ (OpenPTY ⟨none, 0, 0, 7, none⟩ ⟨4, [0, 1, 2]⟩).2.fds ∧
          5 ∈ (OpenPTY ⟨none, 0, 0, 7, none⟩ ⟨4, [0, 1, 2]⟩).2.fds := by
  have h := (C6_openpty ⟨none, 0, 0, 7, none⟩ ⟨4, [0, 1, 2]⟩).1
    ⟨4, 5, "/dev/pts/" ++ Nat.repr 7⟩ rfl
  exact ⟨rfl, h.1, h.2.1, h.2.2.1⟩

/-- C8: evaluation of `GetPass` at a buffer whose capacity equals its
length (the normal `make` allocation) that fills before a line
terminator arrives: the post-loop `clearbuf(pbuf[:i+1])` slices one
past the capacity, so the call panics with the partially read secret
still in the buffer, instead of zeroing it and returning the
bufferspace error the claim describes. -/
theorem C8_overflow_panics :
    GetPass (fun _ => some 97) 2 [0, 0] = GPResult.panicked [97, 97] := by
  decide

end GoTerm
